import Mathlib

/-!
Verification of the draupnir image/instance provisioning orchestrator.

The Go sources are shallowly embedded as executable Lean functions:

* `models.Image` / `models.Instance` become the structures `Image` and
  `Instance` (timestamps as integers, identifiers as `Int`, matching Go's
  `int`).
* The external collaborators (the entity Store and the Executor) are the
  system state `SysState` together with an `Oracle` that decides, per call,
  whether each fallible Store/Executor operation succeeds.  Executor calls
  are recorded in an explicit trace (`ExecCall`) so that "no Executor side
  effect" is a statement about the trace.
* Each HTTP handler becomes a function `Oracle → SysState → input →
  HandlerOut`, where `HandlerOut` carries the HTTP status code written to
  the response, the resulting state, and the Executor-call trace.

The handlers `Images.List`, `Images.Create` and `Images.Done` are embedded
from `routes/images.go`.  The `Images.Destroy` handler (with its
upload-principal cascade) and the `Instances.Create` handler are not among
the sources (only their tests and the API error declarations are); they are
modelled from the specification, as marked in their doc comments.
-/

namespace Draupnir

/-- Image record, embedding `models.Image` (fields ID, BackedUpAt, Ready,
CreatedAt, UpdatedAt and the anonymisation script). Timestamps are
abstracted to `Int`. -/
structure Image where
  id : Int
  backedUpAt : Int
  anon : String
  ready : Bool
  createdAt : Int
  updatedAt : Int
  deriving Repr, DecidableEq

/-- Instance record, embedding `models.Instance` (fields ID, ImageID, Port,
CreatedAt). -/
structure Instance where
  id : Int
  imageID : Int
  port : Int
  createdAt : Int
  deriving Repr, DecidableEq

/-- API error body, embedding the `APIError` struct of the routes package
(the `Source.Parameter` field is flattened). -/
structure APIError where
  id : String
  status : String
  code : String
  title : String
  detail : String
  sourceParameter : String
  deriving Repr, DecidableEq

/-- Embeds `internalServerError` from the routes package. -/
def internalServerError : APIError :=
  { id := "internal_server_error", status := "500",
    code := "internal_server_error", title := "Internal Server Error",
    detail := "Something went wrong :(", sourceParameter := "" }

/-- Embeds `notFoundError` from the routes package. -/
def notFoundError : APIError :=
  { id := "resource_not_found", status := "404",
    code := "resource_not_found", title := "Resource Not Found",
    detail := "The resource you requested could not be found",
    sourceParameter := "" }

/-- Embeds `imageNotFoundError` from the routes package. -/
def imageNotFoundError : APIError :=
  { id := "resource_not_found", status := "404",
    code := "resource_not_found", title := "Image Not Found",
    detail := "The image you specified could not be found",
    sourceParameter := "" }

/-- Embeds `unreadyImageError` from the routes package: the error returned
when an instance is requested from an image whose `ready` is false. Its
HTTP status is 422 (unprocessable entity). -/
def unreadyImageError : APIError :=
  { id := "unprocessable_entity", status := "422",
    code := "unprocessable_entity", title := "Image Not Ready",
    detail := "The specified image is not ready to be used",
    sourceParameter := "image_id" }

/-- Embeds `cannotDeleteImageWithInstancesError` from the routes package:
the error returned when an image with live dependent instances is deleted.
Its HTTP status is 422 (unprocessable entity), and its machine-readable
code is `unprocessable_entity` — not a 409 conflict. -/
def cannotDeleteImageWithInstancesError : APIError :=
  { id := "unprocessable_entity", status := "422",
    code := "unprocessable_entity", title := "Image Has Instances",
    detail := "Cannot delete an image that has instances",
    sourceParameter := "" }

/-- Embeds `invalidJSONError` from the routes package. -/
def invalidJSONError : APIError :=
  { id := "bad_request", status := "400",
    code := "bad_request", title := "Invalid JSON",
    detail := "Your JSON is malformed", sourceParameter := "" }

/-- Outcome of one Instance-lifecycle destroy, as observed by the cascade:
success, a not-found failure (resource already gone), or any other
failure. -/
inductive DRes where
  | ok
  | notFound
  | err
  deriving Repr, DecidableEq

/-- One call across the Executor boundary.  The trace of these calls is the
record of Executor side effects of a handler run. -/
inductive ExecCall where
  | createBtrfsSubvolume (imageID : Int)
  | finaliseImage (imageID : Int)
  | destroyImage (imageID : Int)
  | destroyInstance (instanceID : Int)
  | createInstance (imageID : Int)
  deriving Repr, DecidableEq

/-- Success/failure of each fallible Store or Executor operation, per
target identifier.  A handler consults the oracle exactly where the Go code
checks the returned `error`. -/
structure Oracle where
  storeCreateOk : Bool
  createSubvolumeOk : Int → Bool
  finaliseOk : Int → Bool
  markAsReadyOk : Int → Bool
  destroyImageExecOk : Int → Bool
  imageStoreDestroyOk : Int → Bool
  instanceDestroyRes : Int → DRes
  createInstancePort : Int → Option Int

/-- Combined view of the two entity stores: the persisted image and
instance records, plus the next identifiers the store assigns on create. -/
structure SysState where
  images : List Image
  instances : List Instance
  nextImageId : Int
  nextInstanceId : Int
  deriving Repr, DecidableEq

/-- Result of one handler run: HTTP status code written to the response,
resulting store state, and the Executor calls issued (in order). -/
structure HandlerOut where
  status : Nat
  state : SysState
  calls : List ExecCall
  deriving Repr, DecidableEq

/-- Store.Get: first image record whose ID matches. -/
def lookupImage (s : SysState) (id : Int) : Option Image :=
  s.images.find? (fun im => im.id == id)

/-- Digits of a decimal literal, or `none` when not all characters are
digits (or when there are none). -/
def parseDigits (cs : List Char) : Option Nat :=
  if cs = [] then none
  else if cs.all Char.isDigit then
    some (cs.foldl (fun a c => 10 * a + (c.toNat - 48)) 0)
  else none

/-- Embeds Go's `strconv.Atoi`: an optional sign followed by at least one
decimal digit; everything else is an error (`none`). -/
def atoi (s : String) : Option Int :=
  match s.toList with
  | '+' :: rest => (parseDigits rest).map Int.ofNat
  | '-' :: rest => (parseDigits rest).map (fun n => -(n : Int))
  | cs => (parseDigits cs).map Int.ofNat

/-- Body of a POST /images request (`createImageRequest` in
`routes/images.go`): the `backed_up_at` timestamp. -/
structure CreateImageRequest where
  backedUpAt : Int
  deriving Repr, DecidableEq

/-- Store.MarkAsReady: the image record with the given ID gets
`ready := true`. -/
def markImageReady (s : SysState) (id : Int) : SysState :=
  { s with images :=
      s.images.map (fun im => if im.id == id then { im with ready := true } else im) }

/-- Embeds `Images.Create` of `routes/images.go`.  The JSON-decoded body is
passed as `some req`; a body that fails to decode as `none`.  The handler:
on decode failure writes status 500 (`http.Error` with
`StatusInternalServerError` — not 400); otherwise persists a new image with
`ready = false` via Store.Create (which assigns the next identifier), then
calls `Executor.CreateBtrfsSubvolume` on the assigned identifier.  A Store
failure or an Executor failure is written as status 500; on Executor
failure the persisted record is not rolled back.  Success writes 201. -/
def imagesCreate (o : Oracle) (s : SysState) (body : Option CreateImageRequest) :
    HandlerOut :=
  match body with
  | none => ⟨500, s, []⟩
  | some req =>
    if o.storeCreateOk then
      let image : Image :=
        { id := s.nextImageId, backedUpAt := req.backedUpAt, anon := "",
          ready := false, createdAt := 0, updatedAt := 0 }
      let s' : SysState :=
        { s with images := s.images ++ [image], nextImageId := s.nextImageId + 1 }
      if o.createSubvolumeOk image.id then
        ⟨201, s', [ExecCall.createBtrfsSubvolume image.id]⟩
      else
        ⟨500, s', [ExecCall.createBtrfsSubvolume image.id]⟩
    else ⟨500, s, []⟩

/-- Embeds `Images.Done` of `routes/images.go` (the Finalise operation).
The raw path variable is parsed with `strconv.Atoi`; failure writes 400.
A missing image writes 404.  An image with `ready` already true writes 400
("image is already finalised", `StatusBadRequest` — not 409) without
touching the Executor.  Otherwise `Executor.FinaliseImage` runs first; its
failure writes 500 with the store untouched.  Only then Store.MarkAsReady
flips `ready`; its failure also writes 500 with the store untouched.
Success writes 200. -/
def imagesDone (o : Oracle) (s : SysState) (rawId : String) : HandlerOut :=
  match atoi rawId with
  | none => ⟨400, s, []⟩
  | some id =>
    match lookupImage s id with
    | none => ⟨404, s, []⟩
    | some image =>
      if image.ready then ⟨400, s, []⟩
      else if o.finaliseOk image.id then
        if o.markAsReadyOk image.id then
          ⟨200, markImageReady s image.id, [ExecCall.finaliseImage image.id]⟩
        else ⟨500, s, [ExecCall.finaliseImage image.id]⟩
      else ⟨500, s, [ExecCall.finaliseImage image.id]⟩

/-- Embeds `Images.List` of `routes/images.go`: read-only. -/
def imagesList (s : SysState) : HandlerOut := ⟨200, s, []⟩

/-- Embeds `Images.Get`: read-only; 404 when absent, 200 otherwise. -/
def imagesGet (s : SysState) (rawId : String) : HandlerOut :=
  match atoi rawId with
  | none => ⟨404, s, []⟩
  | some id =>
    match lookupImage s id with
    | none => ⟨404, s, []⟩
    | some _ => ⟨200, s, []⟩

/-- Principal class resolved by the authorization layer: an ordinary
authenticated principal, or the distinguished upload principal
(`auth.UPLOAD_USER_EMAIL`). -/
inductive Principal where
  | ordinary
  | upload
  deriving Repr, DecidableEq

/-- Ordering of instances by ascending instance identifier, used by the
cascade for determinism. -/
def leByID (a b : Instance) : Prop := a.id ≤ b.id

instance : DecidableRel leByID := fun a b => Int.decLe a.id b.id

instance : IsTotal Instance leByID := ⟨fun a b => Int.le_total a.id b.id⟩

instance : IsTrans Instance leByID := ⟨fun _ _ _ h h' => le_trans h h'⟩

/-- Removes the instance record with the given identifier. -/
def removeInstance (l : List Instance) (id : Int) : List Instance :=
  l.filter (fun x => x.id != id)

/-- Modelled from the spec: the Image-lifecycle destroy step shared by both
destroy paths (the `Images.Destroy` handler is not among the sources).
Spec 4.1: the Executor deletes the subvolume, then the Store deletes the
record; if either fails the record is retained and `InternalError` (500) is
surfaced.  Success writes 204 (NoContent, as the handler tests assert). -/
def imageDestroyStep (o : Oracle) (s : SysState) (id : Int) (acc : List ExecCall) :
    HandlerOut :=
  if o.destroyImageExecOk id then
    if o.imageStoreDestroyOk id then
      ⟨204, { s with images := s.images.filter (fun im => im.id != id) },
        acc ++ [ExecCall.destroyImage id]⟩
    else ⟨500, s, acc ++ [ExecCall.destroyImage id]⟩
  else ⟨500, s, acc ++ [ExecCall.destroyImage id]⟩

/-- Modelled from the spec: the cascade of section 4.4 over the dependent
instances, in order.  Each dependent is destroyed via the Instance
lifecycle (Executor stops the process and deletes the snapshot, Store
deletes the record); a `NotFound` failure is treated as success (the
resource is already gone, its record is dropped); any other failure aborts
with `InternalError` (500) without attempting the image delete.  Once the
list is exhausted the image itself is destroyed. -/
def cascade (o : Oracle) (id : Int) :
    SysState → List Instance → List ExecCall → HandlerOut
  | s, [], acc => imageDestroyStep o s id acc
  | s, inst :: rest, acc =>
    match o.instanceDestroyRes inst.id with
    | DRes.err => ⟨500, s, acc ++ [ExecCall.destroyInstance inst.id]⟩
    | _ =>
      cascade o id { s with instances := removeInstance s.instances inst.id }
        rest (acc ++ [ExecCall.destroyInstance inst.id])

/-- Modelled from the spec: the `Images.Destroy` handler (sections 4.1,
4.4, 4.5), whose implementation is not among the sources — only its tests
and the API error declarations are.  A missing image is 404.  For an
ordinary principal, any live instance referencing the image makes the
request fail before any side effect; the error rendered is
`cannotDeleteImageWithInstancesError` (status 422); with no dependents the
image-lifecycle destroy runs.  For the upload principal, all instances are
listed, those whose `image_id` matches are selected, sorted by ascending
instance identifier, and destroyed in turn before the image itself. -/
def imagesDestroy (o : Oracle) (s : SysState) (p : Principal) (id : Int) :
    HandlerOut :=
  match lookupImage s id with
  | none => ⟨404, s, []⟩
  | some _ =>
    match p with
    | Principal.ordinary =>
      if s.instances.any (fun i => i.imageID == id) then ⟨422, s, []⟩
      else imageDestroyStep o s id []
    | Principal.upload =>
      cascade o id s
        (List.insertionSort leByID (s.instances.filter (fun i => i.imageID == id))) []

/-- Modelled from the spec: the `Instances.Create` handler (section 4.2),
whose implementation is not among the sources — only the API error
declarations are.  A missing image is 404 (`imageNotFoundError`) and an
image with `ready = false` is 422 (`unreadyImageError`), both before any
Executor call.  Otherwise the Executor allocates a port, snapshots the
image and starts the process; on success the record is persisted with the
allocated port (201), on failure 500 is surfaced. -/
def instancesCreate (o : Oracle) (s : SysState) (imageID : Int) : HandlerOut :=
  match lookupImage s imageID with
  | none => ⟨404, s, []⟩
  | some image =>
    if image.ready then
      match o.createInstancePort imageID with
      | none => ⟨500, s, [ExecCall.createInstance imageID]⟩
      | some port =>
        let inst : Instance :=
          { id := s.nextInstanceId, imageID := imageID, port := port, createdAt := 0 }
        let s' : SysState :=
          { s with instances := s.instances ++ [inst],
                   nextInstanceId := s.nextInstanceId + 1 }
        ⟨201, s', [ExecCall.createInstance imageID]⟩
    else ⟨422, s, []⟩

/-- Modelled from the spec: the Instance-lifecycle `Destroy` (section 4.2):
404 when the record is absent; otherwise the Executor stops the process and
deletes the snapshot, and the Store deletes the record; Executor failure
retains the record and surfaces 500. -/
def instancesDestroy (o : Oracle) (s : SysState) (id : Int) : HandlerOut :=
  match s.instances.find? (fun i => i.id == id) with
  | none => ⟨404, s, []⟩
  | some inst =>
    match o.instanceDestroyRes inst.id with
    | DRes.err => ⟨500, s, [ExecCall.destroyInstance inst.id]⟩
    | _ =>
      ⟨204, { s with instances := removeInstance s.instances inst.id },
        [ExecCall.destroyInstance inst.id]⟩

/-- One operation of the system's API surface. -/
inductive Op where
  | listImages
  | getImage (rawId : String)
  | createImage (body : Option CreateImageRequest)
  | finaliseImage (rawId : String)
  | destroyImage (p : Principal) (id : Int)
  | createInstance (imageID : Int)
  | destroyInstance (id : Int)
  deriving Repr, DecidableEq

/-- Dispatch of one operation to its handler. -/
def step (op : Op) (o : Oracle) (s : SysState) : HandlerOut :=
  match op with
  | Op.listImages => imagesList s
  | Op.getImage raw => imagesGet s raw
  | Op.createImage body => imagesCreate o s body
  | Op.finaliseImage raw => imagesDone o s raw
  | Op.destroyImage p id => imagesDestroy o s p id
  | Op.createInstance imageID => instancesCreate o s imageID
  | Op.destroyInstance id => instancesDestroy o s id

/-- Is the image with identifier `x` either ready or absent?  The monotone
invariant: once an image is ready this stays true forever. -/
def imageReadyOrGone (s : SysState) (x : Int) : Bool :=
  match lookupImage s x with
  | none => true
  | some im => im.ready

/-- Oracle for concrete runs in which every Store and Executor operation
succeeds. -/
def oracleAllOk : Oracle :=
  { storeCreateOk := true
    createSubvolumeOk := fun _ => true
    finaliseOk := fun _ => true
    markAsReadyOk := fun _ => true
    destroyImageExecOk := fun _ => true
    imageStoreDestroyOk := fun _ => true
    instanceDestroyRes := fun _ => DRes.ok
    createInstancePort := fun _ => some 5432 }

/-- Image fixture mirroring the handler tests: ID 1, not ready. -/
def imageOne : Image :=
  { id := 1, backedUpAt := 10, anon := "", ready := false,
    createdAt := 10, updatedAt := 10 }

/-- State fixture mirroring `TestImageDestroyFromUploadUser`: image 1, and
instances 1 and 3 referencing it while instance 2 references image 2. -/
def destroyFixture : SysState :=
  { images := [imageOne]
    instances :=
      [ { id := 1, imageID := 1, port := 5432, createdAt := 0 },
        { id := 2, imageID := 2, port := 5433, createdAt := 0 },
        { id := 3, imageID := 1, port := 5434, createdAt := 0 } ]
    nextImageId := 2
    nextInstanceId := 4 }

/-! Helper lemmas about the store lookup and the cascade. -/

/-- Looking an image up after filtering away a different identifier is the
original lookup. -/
theorem find?_filter_ne (l : List Image) (target x : Int) (hx : x ≠ target) :
    (l.filter (fun im => im.id != target)).find? (fun im => im.id == x) =
      l.find? (fun im => im.id == x) := by
  induction l with
  | nil => rfl
  | cons a l ih =>
    by_cases h : a.id = x
    · have ht : (a.id != target) = true := by simp [h, hx]
      have hf : (a :: l).filter (fun im => im.id != target) =
          a :: l.filter (fun im => im.id != target) := by
        simp [List.filter_cons, ht]
      rw [hf, List.find?_cons_of_pos _ (by simp [h]),
        List.find?_cons_of_pos _ (by simp [h])]
    · by_cases h2 : a.id = target
      · have hf : (a :: l).filter (fun im => im.id != target) =
            l.filter (fun im => im.id != target) := by
          simp [List.filter_cons, h2]
        rw [hf, ih, List.find?_cons_of_neg _ (by simp [h])]
      · have ht : (a.id != target) = true := by simp [h2]
        have hf : (a :: l).filter (fun im => im.id != target) =
            a :: l.filter (fun im => im.id != target) := by
          simp [List.filter_cons, ht]
        rw [hf, List.find?_cons_of_neg _ (by simp [h]),
          List.find?_cons_of_neg _ (by simp [h]), ih]

/-- A successful lookup survives appending records on the right. -/
theorem find?_append_some {l₁ l₂ : List Image} {p : Image → Bool} {a : Image}
    (h : l₁.find? p = some a) : (l₁ ++ l₂).find? p = some a := by
  simp [List.find?_append, h]

/-- MarkAsReady maps the stored records through a function that preserves
identifiers, so lookup commutes with it. -/
theorem find?_setReady (l : List Image) (id x : Int) :
    (l.map (fun im => if im.id == id then { im with ready := true } else im)).find?
        (fun im => im.id == x) =
      (l.find? (fun im => im.id == x)).map
        (fun im => if im.id == id then { im with ready := true } else im) := by
  induction l with
  | nil => rfl
  | cons a l ih =>
    have hid : (if a.id == id then { a with ready := true } else a).id = a.id := by
      by_cases h : a.id = id <;> simp [h]
    by_cases h : a.id = x
    · rw [List.map_cons, List.find?_cons_of_pos _ (by rw [hid]; simp [h]),
        List.find?_cons_of_pos _ (by simp [h])]
      simp
    · rw [List.map_cons, List.find?_cons_of_neg _ (by rw [hid]; simp [h]),
        List.find?_cons_of_neg _ (by simp [h]), ih]

/-- The cascade either leaves the stored images untouched or removes
exactly the target image's record. -/
theorem cascade_images (o : Oracle) (id : Int) :
    ∀ (deps : List Instance) (s : SysState) (acc : List ExecCall),
      (cascade o id s deps acc).state.images = s.images ∨
      (cascade o id s deps acc).state.images =
        s.images.filter (fun im => im.id != id) := by
  intro deps
  induction deps with
  | nil =>
    intro s acc
    unfold cascade imageDestroyStep
    by_cases h1 : o.destroyImageExecOk id <;> by_cases h2 : o.imageStoreDestroyOk id <;>
      simp [h1, h2]
  | cons d rest ih =>
    intro s acc
    unfold cascade
    cases h : o.instanceDestroyRes d.id with
    | err => simp
    | ok => exact ih _ _
    | notFound => exact ih _ _

/-- Processing a prefix of dependents that all destroy without a hard
failure just removes their records and extends the call trace. -/
theorem cascade_append (o : Oracle) (id : Int) (deps : List Instance) :
    ∀ (tail : List Instance) (s : SysState) (acc : List ExecCall),
      (∀ d ∈ deps, o.instanceDestroyRes d.id ≠ DRes.err) →
      cascade o id s (deps ++ tail) acc =
        cascade o id
          { s with instances := deps.foldl (fun l d => removeInstance l d.id) s.instances }
          tail (acc ++ deps.map (fun d => ExecCall.destroyInstance d.id)) := by
  induction deps with
  | nil => intro tail s acc _; simp
  | cons d rest ih =>
    intro tail s acc h
    have hd : o.instanceDestroyRes d.id ≠ DRes.err := h d (List.mem_cons_self d rest)
    have hstep : cascade o id s ((d :: rest) ++ tail) acc =
        cascade o id { s with instances := removeInstance s.instances d.id }
          (rest ++ tail) (acc ++ [ExecCall.destroyInstance d.id]) := by
      rw [List.cons_append]
      cases hres : o.instanceDestroyRes d.id with
      | err => exact absurd hres hd
      | ok => simp [cascade, hres]
      | notFound => simp [cascade, hres]
    rw [hstep, ih tail _ _ (fun x hx => h x (List.mem_cons_of_mem d hx))]
    simp [List.foldl_cons]

/-- With pairwise-distinct instance identifiers, removing the identifiers
of the sorted dependent list removes exactly the instances that reference
the target image. -/
theorem filter_all_ne_sorted_deps (l : List Instance) (X : Int)
    (hnd : (l.map (fun i => i.id)).Nodup) :
    l.filter (fun x =>
        (List.insertionSort leByID (l.filter (fun i => i.imageID == X))).all
          (fun d => x.id != d.id)) =
      l.filter (fun x => x.imageID != X) := by
  apply List.filter_congr
  intro x hx
  by_cases hX : x.imageID = X
  · have hmem : x ∈ List.insertionSort leByID (l.filter (fun i => i.imageID == X)) := by
      rw [List.mem_insertionSort]
      exact List.mem_filter.mpr ⟨hx, by simp [hX]⟩
    have hfalse : (List.insertionSort leByID (l.filter (fun i => i.imageID == X))).all
        (fun d => x.id != d.id) = false := by
      apply List.all_eq_false.mpr
      exact ⟨x, hmem, by simp⟩
    rw [hfalse]
    simp [hX]
  · have htrue : (List.insertionSort leByID (l.filter (fun i => i.imageID == X))).all
        (fun d => x.id != d.id) = true := by
      apply List.all_eq_true.mpr
      intro d hd
      have hdl : d ∈ l.filter (fun i => i.imageID == X) :=
        (List.mem_insertionSort leByID).mp hd
      have hdX : d.imageID = X := by
        have := (List.mem_filter.mp hdl).2
        simpa using this
      have hdm : d ∈ l := (List.mem_filter.mp hdl).1
      have hne : x.id ≠ d.id := by
        intro he
        have hxd : x = d := List.inj_on_of_nodup_map hnd hx hdm he
        exact hX (hxd ▸ hdX)
      simp [hne]
    rw [htrue]
    simp [hX]

/-- Removing a batch of instance identifiers one by one is one filter. -/
theorem foldl_removeInstance (deps : List Instance) :
    ∀ (l : List Instance),
      deps.foldl (fun l d => removeInstance l d.id) l =
        l.filter (fun x => deps.all (fun d => x.id != d.id)) := by
  induction deps with
  | nil => intro l; simp
  | cons d rest ih =>
    intro l
    rw [List.foldl_cons, ih, removeInstance, List.filter_filter]
    apply List.filter_congr
    intro x _
    simp [Bool.and_comm]

/-- Full characterisation of the cascade when no dependent destroy hits a
hard failure and the image-lifecycle destroy succeeds. -/
theorem cascade_all_ok (o : Oracle) (X : Int) (deps : List Instance) (s : SysState)
    (hdeps : ∀ d ∈ deps, o.instanceDestroyRes d.id ≠ DRes.err)
    (hexec : o.destroyImageExecOk X = true)
    (hstore : o.imageStoreDestroyOk X = true) :
    cascade o X s deps [] =
      ⟨204,
        { images := s.images.filter (fun im2 => im2.id != X),
          instances := s.instances.filter (fun x => deps.all (fun d => x.id != d.id)),
          nextImageId := s.nextImageId, nextInstanceId := s.nextInstanceId },
        deps.map (fun d => ExecCall.destroyInstance d.id) ++ [ExecCall.destroyImage X]⟩ := by
  have happ := cascade_append o X deps [] s [] hdeps
  rw [List.append_nil] at happ
  rw [happ, foldl_removeInstance]
  simp [cascade, imageDestroyStep, hexec, hstore]

/-- Claim C1: a destroy of image `X` requested by the upload principal,
with every dependent instance destroy and the image destroy succeeding,
destroys exactly the instances whose `image_id` equals `X`, in ascending
instance-identifier order and before the image itself; afterwards there are
no instance records referencing `X` and no image record for `X`, the call
trace holds one Executor instance-destroy per dependent followed by one
image-destroy, and instances referencing other images are untouched. -/
theorem upload_destroy_cascade (o : Oracle) (s : SysState) (X : Int) (im : Image)
    (hlook : lookupImage s X = some im)
    (hnd : (s.instances.map (fun i => i.id)).Nodup)
    (hok : ∀ i ∈ s.instances, i.imageID = X → o.instanceDestroyRes i.id = DRes.ok)
    (hexec : o.destroyImageExecOk X = true)
    (hstore : o.imageStoreDestroyOk X = true) :
    (imagesDestroy o s Principal.upload X).status = 204 ∧
    lookupImage (imagesDestroy o s Principal.upload X).state X = none ∧
    (imagesDestroy o s Principal.upload X).state.instances =
      s.instances.filter (fun i => i.imageID != X) ∧
    (imagesDestroy o s Principal.upload X).state.instances.filter
      (fun i => i.imageID == X) = [] ∧
    (imagesDestroy o s Principal.upload X).state.images =
      s.images.filter (fun im2 => im2.id != X) ∧
    (imagesDestroy o s Principal.upload X).calls =
      (List.insertionSort leByID (s.instances.filter (fun i => i.imageID == X))).map
        (fun d => ExecCall.destroyInstance d.id) ++ [ExecCall.destroyImage X] ∧
    List.Sorted leByID
      (List.insertionSort leByID (s.instances.filter (fun i => i.imageID == X))) ∧
    (List.insertionSort leByID (s.instances.filter (fun i => i.imageID == X))).length =
      (s.instances.filter (fun i => i.imageID == X)).length := by
  have hdeps : ∀ d ∈ List.insertionSort leByID
      (s.instances.filter (fun i => i.imageID == X)),
      o.instanceDestroyRes d.id ≠ DRes.err := by
    intro d hd
    have hdl := (List.mem_insertionSort leByID).mp hd
    have h1 := (List.mem_filter.mp hdl).1
    have h2 : d.imageID = X := by simpa using (List.mem_filter.mp hdl).2
    rw [hok d h1 h2]
    intro hcon
    cases hcon
  have hred : imagesDestroy o s Principal.upload X =
      cascade o X s
        (List.insertionSort leByID (s.instances.filter (fun i => i.imageID == X))) [] := by
    unfold imagesDestroy
    rw [hlook]
  rw [hred, cascade_all_ok o X _ s hdeps hexec hstore]
  refine ⟨rfl, ?_, ?_, ?_, rfl, rfl, List.sorted_insertionSort leByID _,
    List.length_insertionSort leByID _⟩
  · apply List.find?_eq_none.mpr
    intro im2 him2
    have := (List.mem_filter.mp him2).2
    simpa using this
  · exact filter_all_ne_sorted_deps s.instances X hnd
  · rw [filter_all_ne_sorted_deps s.instances X hnd]
    rw [List.filter_filter]
    apply List.filter_eq_nil_iff.mpr
    intro a _
    by_cases hX : a.imageID = X <;> simp [hX]

/-- Concrete run of `upload_destroy_cascade` on the fixture of
`TestImageDestroyFromUploadUser`: instances 1 and 3 are destroyed in
ascending order, then image 1, and only instance 2 (on image 2) is left. -/
theorem upload_destroy_cascade_witness :
    lookupImage destroyFixture 1 = some imageOne ∧
    (destroyFixture.instances.map (fun i => i.id)).Nodup ∧
    (∀ i ∈ destroyFixture.instances, i.imageID = 1 →
      oracleAllOk.instanceDestroyRes i.id = DRes.ok) ∧
    oracleAllOk.destroyImageExecOk 1 = true ∧
    oracleAllOk.imageStoreDestroyOk 1 = true ∧
    (imagesDestroy oracleAllOk destroyFixture Principal.upload 1).status = 204 ∧
    lookupImage (imagesDestroy oracleAllOk destroyFixture Principal.upload 1).state 1 =
      none ∧
    (imagesDestroy oracleAllOk destroyFixture Principal.upload 1).state.instances =
      destroyFixture.instances.filter (fun i => i.imageID != 1) :=
  ⟨by decide, by decide, by decide, by decide, by decide,
    (upload_destroy_cascade oracleAllOk destroyFixture 1 imageOne (by decide) (by decide)
        (by decide) (by decide) (by decide)).1,
    (upload_destroy_cascade oracleAllOk destroyFixture 1 imageOne (by decide) (by decide)
        (by decide) (by decide) (by decide)).2.1,
    (upload_destroy_cascade oracleAllOk destroyFixture 1 imageOne (by decide) (by decide)
        (by decide) (by decide) (by decide)).2.2.1⟩

/-- Claim C7: during an upload-principal cascade, a per-instance destroy
failure other than NotFound aborts the cascade: the handler surfaces 500,
the image delete is never attempted (no image-destroy Executor call), the
image record is intact, and only the dependents processed before the
failure are gone — the survivors are untouched. -/
theorem upload_destroy_aborts_on_error (o : Oracle) (s : SysState) (X : Int) (im : Image)
    (pre : List Instance) (bad : Instance) (rest : List Instance)
    (hlook : lookupImage s X = some im)
    (hsplit : List.insertionSort leByID (s.instances.filter (fun i => i.imageID == X)) =
      pre ++ bad :: rest)
    (hpre : ∀ d ∈ pre, o.instanceDestroyRes d.id ≠ DRes.err)
    (hbad : o.instanceDestroyRes bad.id = DRes.err) :
    (imagesDestroy o s Principal.upload X).status = 500 ∧
    (imagesDestroy o s Principal.upload X).state.images = s.images ∧
    lookupImage (imagesDestroy o s Principal.upload X).state X = some im ∧
    (imagesDestroy o s Principal.upload X).calls =
      pre.map (fun d => ExecCall.destroyInstance d.id) ++
        [ExecCall.destroyInstance bad.id] ∧
    ExecCall.destroyImage X ∉ (imagesDestroy o s Principal.upload X).calls ∧
    (imagesDestroy o s Principal.upload X).state.instances =
      s.instances.filter (fun x => pre.all (fun d => x.id != d.id)) := by
  have hred : imagesDestroy o s Principal.upload X =
      cascade o X s
        (List.insertionSort leByID (s.instances.filter (fun i => i.imageID == X))) [] := by
    unfold imagesDestroy
    rw [hlook]
  have happ := cascade_append o X pre (bad :: rest) s [] hpre
  have hfull : imagesDestroy o s Principal.upload X =
      ⟨500,
        { images := s.images,
          instances := s.instances.filter (fun x => pre.all (fun d => x.id != d.id)),
          nextImageId := s.nextImageId, nextInstanceId := s.nextInstanceId },
        ([] ++ pre.map (fun d => ExecCall.destroyInstance d.id)) ++
          [ExecCall.destroyInstance bad.id]⟩ := by
    rw [hred, hsplit, happ, foldl_removeInstance]
    simp [cascade, hbad]
  rw [hfull]
  refine ⟨rfl, rfl, ?_, by simp, by simp, rfl⟩
  simpa [lookupImage] using hlook

/-- Oracle in which the Instance-lifecycle destroy of instance 3 hits a
hard (non-NotFound) failure and everything else succeeds. -/
def oracleInstThreeFails : Oracle :=
  { oracleAllOk with
    instanceDestroyRes := fun i => if i == 3 then DRes.err else DRes.ok }

/-- Concrete run of `upload_destroy_aborts_on_error`: instance 1 is
destroyed, instance 3 fails hard, so the cascade stops with 500, image 1 is
still there and no image-destroy call was issued. -/
theorem upload_destroy_aborts_on_error_witness :
    lookupImage destroyFixture 1 = some imageOne ∧
    List.insertionSort leByID
        (destroyFixture.instances.filter (fun i => i.imageID == 1)) =
      [{ id := 1, imageID := 1, port := 5432, createdAt := 0 }] ++
        { id := 3, imageID := 1, port := 5434, createdAt := 0 } :: [] ∧
    (∀ d ∈ [({ id := 1, imageID := 1, port := 5432, createdAt := 0 } : Instance)],
      oracleInstThreeFails.instanceDestroyRes d.id ≠ DRes.err) ∧
    oracleInstThreeFails.instanceDestroyRes 3 = DRes.err ∧
    (imagesDestroy oracleInstThreeFails destroyFixture Principal.upload 1).status = 500 ∧
    (imagesDestroy oracleInstThreeFails destroyFixture Principal.upload 1).state.images =
      destroyFixture.images ∧
    ExecCall.destroyImage 1 ∉
      (imagesDestroy oracleInstThreeFails destroyFixture Principal.upload 1).calls :=
  ⟨by decide, by decide, by decide, by decide,
    (upload_destroy_aborts_on_error oracleInstThreeFails destroyFixture 1 imageOne
        [{ id := 1, imageID := 1, port := 5432, createdAt := 0 }]
        { id := 3, imageID := 1, port := 5434, createdAt := 0 } [] (by decide) (by decide)
        (by decide) (by decide)).1,
    (upload_destroy_aborts_on_error oracleInstThreeFails destroyFixture 1 imageOne
        [{ id := 1, imageID := 1, port := 5432, createdAt := 0 }]
        { id := 3, imageID := 1, port := 5434, createdAt := 0 } [] (by decide) (by decide)
        (by decide) (by decide)).2.1,
    (upload_destroy_aborts_on_error oracleInstThreeFails destroyFixture 1 imageOne
        [{ id := 1, imageID := 1, port := 5432, createdAt := 0 }]
        { id := 3, imageID := 1, port := 5434, createdAt := 0 } [] (by decide) (by decide)
        (by decide) (by decide)).2.2.2.2.1⟩

/-- Claim C6 (amended): an ordinary-principal destroy of an image with at
least one live dependent instance fails with the 422 unprocessable-entity
error `cannotDeleteImageWithInstancesError` — not a 409 Conflict — before
any Store or Executor side effect; with zero dependents the destroy
succeeds: the Executor deletes the subvolume and the record is deleted. -/
theorem ordinary_destroy_blocks_on_dependents (o : Oracle) (s : SysState) (X : Int)
    (im : Image) (hlook : lookupImage s X = some im) :
    ((∃ i ∈ s.instances, i.imageID = X) →
      imagesDestroy o s Principal.ordinary X = ⟨422, s, []⟩) ∧
    ((∀ i ∈ s.instances, i.imageID ≠ X) →
      o.destroyImageExecOk X = true → o.imageStoreDestroyOk X = true →
      imagesDestroy o s Principal.ordinary X =
        ⟨204,
          { images := s.images.filter (fun im2 => im2.id != X),
            instances := s.instances, nextImageId := s.nextImageId,
            nextInstanceId := s.nextInstanceId },
          [ExecCall.destroyImage X]⟩) := by
  constructor
  · intro hex
    have hany : s.instances.any (fun i => i.imageID == X) = true := by
      rcases hex with ⟨i, hi, hiX⟩
      exact List.any_eq_true.mpr ⟨i, hi, by simp [hiX]⟩
    unfold imagesDestroy
    rw [hlook]
    simp [hany]
  · intro hall hexec hstore
    have hany : s.instances.any (fun i => i.imageID == X) = false := by
      apply List.any_eq_false.mpr
      intro i hi
      simp [hall i hi]
    unfold imagesDestroy
    rw [hlook]
    simp [hany, imageDestroyStep, hexec, hstore]

/-- Counterexample to claim C6 as stated: on an image with a live
dependent instance, the ordinary-principal destroy renders
`cannotDeleteImageWithInstancesError`, whose HTTP status is 422 and whose
machine-readable code is `unprocessable_entity` — not the 409 Conflict the
claim names. -/
theorem ordinary_destroy_conflict_counterexample :
    (imagesDestroy oracleAllOk destroyFixture Principal.ordinary 1).status = 422 ∧
    cannotDeleteImageWithInstancesError.status = "422" ∧
    cannotDeleteImageWithInstancesError.code = "unprocessable_entity" ∧
    (imagesDestroy oracleAllOk destroyFixture Principal.ordinary 1).status ≠ 409 := by
  refine ⟨by decide, rfl, rfl, by decide⟩

/-- Concrete run of `ordinary_destroy_blocks_on_dependents`: image 1 has
dependent instances, so an ordinary destroy is refused with 422 and no
side effect. -/
theorem ordinary_destroy_blocks_witness :
    lookupImage destroyFixture 1 = some imageOne ∧
    (∃ i ∈ destroyFixture.instances, i.imageID = 1) ∧
    imagesDestroy oracleAllOk destroyFixture Principal.ordinary 1 =
      ⟨422, destroyFixture, []⟩ :=
  ⟨by decide, by decide,
    (ordinary_destroy_blocks_on_dependents oracleAllOk destroyFixture 1 imageOne
        (by decide)).1 (by decide)⟩

/-- State fixture with the single unready image 1 and no instances. -/
def unreadyFixture : SysState :=
  { images := [imageOne], instances := [], nextImageId := 2, nextInstanceId := 1 }

/-- Image 1, already finalised. -/
def imageOneReady : Image := { imageOne with ready := true }

/-- State fixture with the single ready image 1 and no instances. -/
def readyFixture : SysState :=
  { images := [imageOneReady], instances := [], nextImageId := 2, nextInstanceId := 1 }

/-- Oracle in which `Executor.FinaliseImage` fails and all else succeeds. -/
def oracleFinaliseFail : Oracle := { oracleAllOk with finaliseOk := fun _ => false }

/-- Oracle in which `Store.MarkAsReady` fails and all else succeeds. -/
def oracleMarkFail : Oracle := { oracleAllOk with markAsReadyOk := fun _ => false }

/-- Oracle in which `Executor.CreateBtrfsSubvolume` fails, all else
succeeds. -/
def oracleSubvolFail : Oracle :=
  { oracleAllOk with createSubvolumeOk := fun _ => false }

/-- Claim C3: on an existing image with `ready = false`, Finalise invokes
the Executor finalisation first; if it fails the handler surfaces 500 with
the store unchanged (so `ready` is still false), and `ready` is flipped
only when the Executor call (and the store update) succeed. -/
theorem finalise_exec_failure (o : Oracle) (s : SysState) (raw : String) (id : Int)
    (im : Image) (hid : atoi raw = some id) (hlook : lookupImage s id = some im)
    (hready : im.ready = false) :
    (o.finaliseOk im.id = false →
      imagesDone o s raw = ⟨500, s, [ExecCall.finaliseImage im.id]⟩) ∧
    (o.finaliseOk im.id = true → o.markAsReadyOk im.id = true →
      imagesDone o s raw =
        ⟨200, markImageReady s im.id, [ExecCall.finaliseImage im.id]⟩) := by
  constructor
  · intro hf
    unfold imagesDone
    simp [hid, hlook, hready, hf]
  · intro hf hm
    unfold imagesDone
    simp [hid, hlook, hready, hf, hm]

/-- Concrete run of `finalise_exec_failure`: Executor finalisation fails on
the unready image 1, the handler returns 500 and the state is unchanged. -/
theorem finalise_exec_failure_witness :
    atoi "1" = some 1 ∧
    lookupImage unreadyFixture 1 = some imageOne ∧
    imageOne.ready = false ∧
    oracleFinaliseFail.finaliseOk imageOne.id = false ∧
    imagesDone oracleFinaliseFail unreadyFixture "1" =
      ⟨500, unreadyFixture, [ExecCall.finaliseImage 1]⟩ :=
  ⟨by decide, by decide, by decide, by decide,
    (finalise_exec_failure oracleFinaliseFail unreadyFixture "1" 1 imageOne (by decide)
        (by decide) (by decide)).1 (by decide)⟩

/-- Claim C10: when the Executor finalisation succeeds but the
`MarkAsReady` store update fails, Finalise surfaces 500 with the store
unchanged (the record still has `ready = false`) even though the Executor
call already happened — and a retry of Finalise on the resulting state
invokes the Executor finalisation again. -/
theorem finalise_store_failure (o : Oracle) (s : SysState) (raw : String) (id : Int)
    (im : Image) (hid : atoi raw = some id) (hlook : lookupImage s id = some im)
    (hready : im.ready = false) (hf : o.finaliseOk im.id = true)
    (hm : o.markAsReadyOk im.id = false) :
    imagesDone o s raw = ⟨500, s, [ExecCall.finaliseImage im.id]⟩ ∧
    ExecCall.finaliseImage im.id ∈
      (imagesDone o ((imagesDone o s raw).state) raw).calls := by
  have h1 : imagesDone o s raw = ⟨500, s, [ExecCall.finaliseImage im.id]⟩ := by
    unfold imagesDone
    simp [hid, hlook, hready, hf, hm]
  refine ⟨h1, ?_⟩
  rw [h1]
  show ExecCall.finaliseImage im.id ∈ (imagesDone o s raw).calls
  rw [h1]
  simp

/-- Concrete run of `finalise_store_failure`: the store update fails after
a successful Executor finalisation; the state is unchanged and the retry
issues a second Executor finalisation call. -/
theorem finalise_store_failure_witness :
    atoi "1" = some 1 ∧
    lookupImage unreadyFixture 1 = some imageOne ∧
    imageOne.ready = false ∧
    oracleMarkFail.finaliseOk imageOne.id = true ∧
    oracleMarkFail.markAsReadyOk imageOne.id = false ∧
    imagesDone oracleMarkFail unreadyFixture "1" =
      ⟨500, unreadyFixture, [ExecCall.finaliseImage 1]⟩ ∧
    ExecCall.finaliseImage 1 ∈
      (imagesDone oracleMarkFail
        ((imagesDone oracleMarkFail unreadyFixture "1").state) "1").calls :=
  ⟨by decide, by decide, by decide, by decide, by decide,
    (finalise_store_failure oracleMarkFail unreadyFixture "1" 1 imageOne (by decide)
        (by decide) (by decide) (by decide) (by decide)).1,
    (finalise_store_failure oracleMarkFail unreadyFixture "1" 1 imageOne (by decide)
        (by decide) (by decide) (by decide) (by decide)).2⟩

/-- Claim C4 (amended): Finalise on an already-ready image returns the 400
BadRequest response "image is already finalised" (not a 409 Conflict) with
no Executor call and the store unchanged; and after a successful Finalise,
re-invoking Finalise takes exactly that branch, so the Executor
finalisation is invoked at most once in total. -/
theorem finalise_already_ready (o : Oracle) (s : SysState) (raw : String) (id : Int)
    (im : Image) (hid : atoi raw = some id) (hlook : lookupImage s id = some im) :
    (im.ready = true → imagesDone o s raw = ⟨400, s, []⟩) ∧
    (im.ready = false → o.finaliseOk im.id = true → o.markAsReadyOk im.id = true →
      (imagesDone o s raw).status = 200 ∧
      imagesDone o ((imagesDone o s raw).state) raw =
        ⟨400, (imagesDone o s raw).state, []⟩) := by
  constructor
  · intro hready
    unfold imagesDone
    simp [hid, hlook, hready]
  · intro hready hf hm
    have him : im.id = id := by simpa using List.find?_some hlook
    have h1 : imagesDone o s raw =
        ⟨200, markImageReady s im.id, [ExecCall.finaliseImage im.id]⟩ := by
      unfold imagesDone
      simp [hid, hlook, hready, hf, hm]
    have hlook2 : lookupImage (markImageReady s im.id) id =
        some { im with ready := true } := by
      have hlook' : s.images.find? (fun im2 => im2.id == id) = some im := hlook
      unfold lookupImage markImageReady
      rw [find?_setReady, hlook']
      simp
    refine ⟨by rw [h1], ?_⟩
    rw [h1]
    show imagesDone o (markImageReady s im.id) raw = _
    unfold imagesDone
    simp [hid, hlook2]

/-- Counterexample to claim C4 as stated: Finalise on the already-ready
image 1 writes HTTP status 400 (BadRequest, "image is already finalised"),
not a 409 Conflict. -/
theorem finalise_already_ready_counterexample :
    imagesDone oracleAllOk readyFixture "1" = ⟨400, readyFixture, []⟩ ∧
    (imagesDone oracleAllOk readyFixture "1").status ≠ 409 := by
  exact ⟨by decide, by decide⟩

/-- Concrete run of `finalise_already_ready`: finalising the unready image
1 succeeds (200), and immediately finalising again returns 400 with no
further Executor call. -/
theorem finalise_already_ready_witness :
    atoi "1" = some 1 ∧
    lookupImage unreadyFixture 1 = some imageOne ∧
    imageOne.ready = false ∧
    oracleAllOk.finaliseOk imageOne.id = true ∧
    oracleAllOk.markAsReadyOk imageOne.id = true ∧
    (imagesDone oracleAllOk unreadyFixture "1").status = 200 ∧
    imagesDone oracleAllOk ((imagesDone oracleAllOk unreadyFixture "1").state) "1" =
      ⟨400, (imagesDone oracleAllOk unreadyFixture "1").state, []⟩ :=
  ⟨by decide, by decide, by decide, by decide, by decide,
    ((finalise_already_ready oracleAllOk unreadyFixture "1" 1 imageOne (by decide)
        (by decide)).2 (by decide) (by decide) (by decide)).1,
    ((finalise_already_ready oracleAllOk unreadyFixture "1" 1 imageOne (by decide)
        (by decide)).2 (by decide) (by decide) (by decide)).2⟩

/-- Claim C5: Image Create persists the new record (with `ready = false`
and the assigned identifier) before the Executor materialisation; if the
Store create fails the Executor is never called, and if the Executor
materialisation fails the handler surfaces 500 while the persisted record
is left in place — no compensating delete. -/
theorem create_persists_before_materialise (o : Oracle) (s : SysState)
    (req : CreateImageRequest) :
    (o.storeCreateOk = false → imagesCreate o s (some req) = ⟨500, s, []⟩) ∧
    (o.storeCreateOk = true → o.createSubvolumeOk s.nextImageId = false →
      (imagesCreate o s (some req)).status = 500 ∧
      (imagesCreate o s (some req)).state.images =
        s.images ++ [{ id := s.nextImageId, backedUpAt := req.backedUpAt, anon := "",
                       ready := false, createdAt := 0, updatedAt := 0 }] ∧
      (imagesCreate o s (some req)).calls =
        [ExecCall.createBtrfsSubvolume s.nextImageId]) := by
  constructor
  · intro hs
    unfold imagesCreate
    simp [hs]
  · intro hs hc
    unfold imagesCreate
    simp [hs, hc]

/-- Concrete run of `create_persists_before_materialise`: the subvolume
creation fails, the handler returns 500, and the record with the assigned
identifier and `ready = false` stays persisted. -/
theorem create_persists_before_materialise_witness :
    oracleSubvolFail.storeCreateOk = true ∧
    oracleSubvolFail.createSubvolumeOk unreadyFixture.nextImageId = false ∧
    (imagesCreate oracleSubvolFail unreadyFixture (some { backedUpAt := 10 })).status =
      500 ∧
    (imagesCreate oracleSubvolFail unreadyFixture
        (some { backedUpAt := 10 })).state.images =
      unreadyFixture.images ++
        [{ id := unreadyFixture.nextImageId, backedUpAt := 10, anon := "",
           ready := false, createdAt := 0, updatedAt := 0 }] ∧
    (imagesCreate oracleSubvolFail unreadyFixture (some { backedUpAt := 10 })).calls =
      [ExecCall.createBtrfsSubvolume unreadyFixture.nextImageId] :=
  ⟨by decide, by decide,
    ((create_persists_before_materialise oracleSubvolFail unreadyFixture
        { backedUpAt := 10 }).2 (by decide) (by decide)).1,
    ((create_persists_before_materialise oracleSubvolFail unreadyFixture
        { backedUpAt := 10 }).2 (by decide) (by decide)).2.1,
    ((create_persists_before_materialise oracleSubvolFail unreadyFixture
        { backedUpAt := 10 }).2 (by decide) (by decide)).2.2⟩

/-- Claim C8: Instance Create fails with 404 when the image identifier
matches no record and with 422 (`unreadyImageError`) when the image exists
with `ready = false`, in both cases with no state change and no Executor
call — no port allocated, no snapshot created, no process started. -/
theorem instance_create_guards (o : Oracle) (s : SysState) (X : Int) (im : Image) :
    (lookupImage s X = none → instancesCreate o s X = ⟨404, s, []⟩) ∧
    (lookupImage s X = some im → im.ready = false →
      instancesCreate o s X = ⟨422, s, []⟩) := by
  constructor
  · intro h
    unfold instancesCreate
    rw [h]
  · intro h hr
    unfold instancesCreate
    simp [h, hr]

/-- Concrete run of `instance_create_guards`: creating an instance from the
unready image 1 is refused with 422 and no Executor call. -/
theorem instance_create_guards_witness :
    lookupImage unreadyFixture 1 = some imageOne ∧
    imageOne.ready = false ∧
    instancesCreate oracleAllOk unreadyFixture 1 = ⟨422, unreadyFixture, []⟩ :=
  ⟨by decide, by decide,
    (instance_create_guards oracleAllOk unreadyFixture 1 imageOne).2 (by decide)
      (by decide)⟩

/-- Claim C9 (amended): a non-integer identifier in the Finalise path
fails with 400 BadRequest and no Store or Executor side effect; a request
body that does not decode makes Image Create fail with 500
InternalServerError (not 400), also with no Store or Executor side
effect. -/
theorem malformed_input_handling (o : Oracle) (s : SysState) (raw : String)
    (hraw : atoi raw = none) :
    imagesDone o s raw = ⟨400, s, []⟩ ∧
    imagesCreate o s none = ⟨500, s, []⟩ := by
  constructor
  · unfold imagesDone
    rw [hraw]
  · rfl

/-- Counterexample to claim C9 as stated: in `Images.Create` a request
body that fails to decode is answered with HTTP status 500
(InternalServerError), not the 400 BadRequest the claim requires. -/
theorem malformed_body_counterexample :
    imagesCreate oracleAllOk unreadyFixture none = ⟨500, unreadyFixture, []⟩ ∧
    (imagesCreate oracleAllOk unreadyFixture none).status ≠ 400 := by
  exact ⟨rfl, by decide⟩

/-- Concrete run of `malformed_input_handling`: the non-numeric path
identifier of `TestImageDoneWithNonNumericID` gives 400 with no side
effect, and a non-decoding Create body gives 500 with no side effect. -/
theorem malformed_input_handling_witness :
    atoi "bad_id" = none ∧
    imagesDone oracleAllOk unreadyFixture "bad_id" = ⟨400, unreadyFixture, []⟩ ∧
    imagesCreate oracleAllOk unreadyFixture none = ⟨500, unreadyFixture, []⟩ :=
  ⟨by decide,
    (malformed_input_handling oracleAllOk unreadyFixture "bad_id" (by decide)).1,
    (malformed_input_handling oracleAllOk unreadyFixture "bad_id" (by decide)).2⟩

/-! State characterisations of each handler, for the monotonicity
invariant. -/

/-- `Images.Get` never changes the state. -/
theorem imagesGet_state (s : SysState) (raw : String) : (imagesGet s raw).state = s := by
  unfold imagesGet
  cases ha : atoi raw with
  | none => rfl
  | some id => cases hl : lookupImage s id <;> simp [hl]

/-- `Images.Create` either leaves the image records unchanged or appends
one record. -/
theorem imagesCreate_images (o : Oracle) (s : SysState)
    (body : Option CreateImageRequest) :
    (imagesCreate o s body).state.images = s.images ∨
    ∃ a, (imagesCreate o s body).state.images = s.images ++ [a] := by
  unfold imagesCreate
  cases body with
  | none => left; rfl
  | some req =>
    by_cases hs : o.storeCreateOk
    · by_cases hc : o.createSubvolumeOk s.nextImageId
      · right
        refine ⟨{ id := s.nextImageId, backedUpAt := req.backedUpAt, anon := "",
                  ready := false, createdAt := 0, updatedAt := 0 }, ?_⟩
        simp [hs, hc]
      · right
        refine ⟨{ id := s.nextImageId, backedUpAt := req.backedUpAt, anon := "",
                  ready := false, createdAt := 0, updatedAt := 0 }, ?_⟩
        simp [hs, hc]
    · left; simp [hs]

/-- `Images.Done` either leaves the state unchanged or marks one image
ready. -/
theorem imagesDone_state (o : Oracle) (s : SysState) (raw : String) :
    (imagesDone o s raw).state = s ∨
    ∃ id, (imagesDone o s raw).state = markImageReady s id := by
  unfold imagesDone
  cases ha : atoi raw with
  | none => left; rfl
  | some id =>
    cases hl : lookupImage s id with
    | none => left; simp [hl]
    | some image =>
      by_cases hr : image.ready
      · left; simp [hl, hr]
      · by_cases hf : o.finaliseOk image.id
        · by_cases hm : o.markAsReadyOk image.id
          · right; exact ⟨image.id, by simp [hl, hr, hf, hm]⟩
          · left; simp [hl, hr, hf, hm]
        · left; simp [hl, hr, hf]

/-- `Images.Destroy` either leaves the image records unchanged or removes
exactly the target record. -/
theorem imagesDestroy_images (o : Oracle) (s : SysState) (p : Principal) (X : Int) :
    (imagesDestroy o s p X).state.images = s.images ∨
    (imagesDestroy o s p X).state.images =
      s.images.filter (fun im => im.id != X) := by
  unfold imagesDestroy
  cases hl : lookupImage s X with
  | none => left; rfl
  | some im =>
    cases p with
    | ordinary =>
      by_cases hany : s.instances.any (fun i => i.imageID == X)
      · left; simp [hl, hany]
      · unfold imageDestroyStep
        by_cases h1 : o.destroyImageExecOk X <;> by_cases h2 : o.imageStoreDestroyOk X <;>
          simp [hl, hany, h1, h2]
    | upload =>
      have hc := cascade_images o X
        (List.insertionSort leByID (s.instances.filter (fun i => i.imageID == X))) s []
      simpa [hl] using hc

/-- `Instances.Create` never changes the image records. -/
theorem instancesCreate_images (o : Oracle) (s : SysState) (X : Int) :
    (instancesCreate o s X).state.images = s.images := by
  unfold instancesCreate
  cases hl : lookupImage s X with
  | none => rfl
  | some im =>
    by_cases hr : im.ready
    · cases hp : o.createInstancePort X <;> simp [hl, hr, hp]
    · simp [hl, hr]

/-- Instance Destroy never changes the image records. -/
theorem instancesDestroy_images (o : Oracle) (s : SysState) (X : Int) :
    (instancesDestroy o s X).state.images = s.images := by
  unfold instancesDestroy
  cases hl : s.instances.find? (fun i => i.id == X) with
  | none => rfl
  | some inst => cases hres : o.instanceDestroyRes inst.id <;> simp [hl, hres]

/-- The ready-or-gone invariant only depends on the image records. -/
theorem readyOrGone_of_images (s t : SysState) (x : Int) (h : t.images = s.images) :
    imageReadyOrGone t x = imageReadyOrGone s x := by
  unfold imageReadyOrGone lookupImage
  rw [h]

/-- Appending records preserves readiness of a present ready image. -/
theorem readyOrGone_append (s t : SysState) (x : Int) (im : Image) (rest : List Image)
    (hlook : lookupImage s x = some im) (hready : im.ready = true)
    (h : t.images = s.images ++ rest) :
    imageReadyOrGone t x = true := by
  have hlook' : s.images.find? (fun im2 => im2.id == x) = some im := hlook
  unfold imageReadyOrGone lookupImage
  rw [h, find?_append_some hlook']
  exact hready

/-- MarkAsReady preserves readiness of a present ready image. -/
theorem readyOrGone_markReady (s : SysState) (x id2 : Int) (im : Image)
    (hlook : lookupImage s x = some im) (hready : im.ready = true) :
    imageReadyOrGone (markImageReady s id2) x = true := by
  have hlook' : s.images.find? (fun im2 => im2.id == x) = some im := hlook
  unfold imageReadyOrGone lookupImage markImageReady
  rw [find?_setReady, hlook']
  by_cases h : im.id = id2 <;> simp [h, hready]

/-- Removing one image record preserves ready-or-gone for every image. -/
theorem readyOrGone_filter (s t : SysState) (x X : Int) (im : Image)
    (hlook : lookupImage s x = some im) (hready : im.ready = true)
    (h : t.images = s.images.filter (fun im2 => im2.id != X)) :
    imageReadyOrGone t x = true := by
  unfold imageReadyOrGone lookupImage
  rw [h]
  by_cases hx : x = X
  · subst hx
    have hnone : (s.images.filter fun im2 => im2.id != x).find?
        (fun im2 => im2.id == x) = none := by
      apply List.find?_eq_none.mpr
      intro a ha
      have := (List.mem_filter.mp ha).2
      simpa using this
    rw [hnone]
  · rw [find?_filter_ne s.images X x hx]
    have hlook' : s.images.find? (fun im2 => im2.id == x) = some im := hlook
    rw [hlook']
    exact hready

/-- Claim C2: `ready` is monotone under every operation of the system:
whenever the image `x` is stored with `ready = true`, after any single
operation the image is either gone (destroyed) or still has
`ready = true`; no operation flips `ready` back to false (the only
mutation of `ready` is Done's MarkAsReady, which sets it to true). -/
theorem ready_monotone (op : Op) (o : Oracle) (s : SysState) (x : Int) (im : Image)
    (hlook : lookupImage s x = some im) (hready : im.ready = true) :
    imageReadyOrGone (step op o s).state x = true := by
  cases op with
  | listImages =>
    show imageReadyOrGone (imagesList s).state x = true
    simp [imagesList, imageReadyOrGone, hlook, hready]
  | getImage raw =>
    show imageReadyOrGone (imagesGet s raw).state x = true
    rw [readyOrGone_of_images s _ x (by rw [imagesGet_state])]
    simp [imageReadyOrGone, hlook, hready]
  | createImage body =>
    show imageReadyOrGone (imagesCreate o s body).state x = true
    rcases imagesCreate_images o s body with h | ⟨a, h⟩
    · rw [readyOrGone_of_images s _ x h]
      simp [imageReadyOrGone, hlook, hready]
    · exact readyOrGone_append s _ x im [a] hlook hready h
  | finaliseImage raw =>
    show imageReadyOrGone (imagesDone o s raw).state x = true
    rcases imagesDone_state o s raw with h | ⟨id2, h⟩
    · rw [h]
      simp [imageReadyOrGone, hlook, hready]
    · rw [h]
      exact readyOrGone_markReady s x id2 im hlook hready
  | destroyImage p X =>
    show imageReadyOrGone (imagesDestroy o s p X).state x = true
    rcases imagesDestroy_images o s p X with h | h
    · rw [readyOrGone_of_images s _ x h]
      simp [imageReadyOrGone, hlook, hready]
    · exact readyOrGone_filter s _ x X im hlook hready h
  | createInstance X =>
    show imageReadyOrGone (instancesCreate o s X).state x = true
    rw [readyOrGone_of_images s _ x (instancesCreate_images o s X)]
    simp [imageReadyOrGone, hlook, hready]
  | destroyInstance X =>
    show imageReadyOrGone (instancesDestroy o s X).state x = true
    rw [readyOrGone_of_images s _ x (instancesDestroy_images o s X)]
    simp [imageReadyOrGone, hlook, hready]

/-- Concrete run of `ready_monotone`: re-finalising the ready image 1
leaves it ready. -/
theorem ready_monotone_witness :
    lookupImage readyFixture 1 = some imageOneReady ∧
    imageOneReady.ready = true ∧
    imageReadyOrGone (step (Op.finaliseImage "1") oracleAllOk readyFixture).state 1 =
      true :=
  ⟨by decide, by decide,
    ready_monotone (Op.finaliseImage "1") oracleAllOk readyFixture 1 imageOneReady
      (by decide) (by decide)⟩

end Draupnir
